import Mathlib

/-!
# Verification of the Bitbucket Data Center client (`src/client.ts`)

A shallow embedding of the TypeScript HTTP client in `src/client.ts`.
Every public method of `BitbucketClient` is modelled as a pure Lean
function from its parameter record and the outcomes of the HTTP requests
it issues (supplied as explicit `Except`-valued oracle arguments, one per
potential request) to the pair of
* the list of HTTP requests actually issued by the call, in order, and
* the overall result (`Except` mirrors the promise: `error` is a rejected
  promise propagating the transport/HTTP error, `ok` the resolved value).

JavaScript-specific behaviours are embedded faithfully: template-literal
interpolation of `undefined`, truthiness of strings and numbers in `||`
and conditional spreads, first-occurrence `String.replace`, substring
`String.includes`, object-spread merging where later keys win.
-/

/-- JSON-like values: request/response payloads and query-parameter values. -/
inductive JVal where
  | null
  | str (s : String)
  | num (n : Int)
  | bool (b : Bool)
  | obj (fields : List (String × JVal))
  | arr (elems : List JVal)

/-- A plain JavaScript object, as an association list of fields. -/
abbrev JObj := List (String × JVal)

/-- Field access on a JSON object value. -/
def jGet (v : JVal) (k : String) : Option JVal :=
  match v with
  | .obj fields => fields.lookup k
  | _ => none

/-- JavaScript `s.startsWith(pre)`. -/
def jsStartsWith (s pre : String) : Bool :=
  pre.data.isPrefixOf s.data

/-- Does `sub` occur as a contiguous sublist of the second argument?
Implements the search performed by JavaScript `String.includes`. -/
def subOccurs (sub : List Char) : List Char → Bool
  | [] => sub.isEmpty
  | c :: cs => sub.isPrefixOf (c :: cs) || subOccurs sub cs

/-- JavaScript `s.includes(sub)`. -/
def strIncludes (s sub : String) : Bool :=
  subOccurs sub.data s.data

/-- JavaScript `a || b` on an optional string `a`: `b` when `a` is
`undefined` or the empty string (falsy), otherwise `a`. -/
def jsOrStr (a : Option String) (b : String) : String :=
  match a with
  | some s => if s = "" then b else s
  | none => b

/-- JavaScript template-literal interpolation of a possibly-`undefined`
string: `undefined` prints as the string `"undefined"`. -/
def jsTemplate (o : Option String) : String :=
  o.getD "undefined"

/-- Replace the first occurrence of `pat` (leftmost match) by `rep`;
the list is returned unchanged when `pat` does not occur. -/
def replaceFirstAux (pat rep : List Char) : List Char → List Char
  | [] => if pat.isPrefixOf ([] : List Char) then rep else []
  | c :: cs =>
      if pat.isPrefixOf (c :: cs) then rep ++ (c :: cs).drop pat.length
      else c :: replaceFirstAux pat rep cs

/-- JavaScript `s.replace(pat, rep)` with a string pattern: replaces only
the first occurrence. -/
def jsReplace (s pat rep : String) : String :=
  ⟨replaceFirstAux pat.data rep.data s.data⟩

/-- JavaScript object-spread merge `{...a, ...b}` restricted to the keys of
interest: bindings of `b` shadow bindings of `a` with the same key. -/
def objMerge {α : Type} (a b : List (String × α)) : List (String × α) :=
  a.filter (fun kv => (b.lookup kv.1).isNone) ++ b

/-- Specification-side predicate: `s` starts with `pre`. -/
def StartsWithP (pre s : String) : Prop :=
  ∃ t, s = pre ++ t

/-- Specification-side predicate: `sub` occurs as a contiguous substring
of `s`. -/
def ContainsSub (sub s : String) : Prop :=
  ∃ a b, s = a ++ sub ++ b

/-! ## HTTP model -/

inductive HttpMethod where
  | get
  | post
  | put
  | delete
  deriving DecidableEq

/-- One HTTP request as built by the client: method, effective base URL
(the axios default, or a per-request override), path, query parameters,
per-request header overrides, and optional JSON body. -/
structure Request where
  meth : HttpMethod
  base : String
  path : String
  query : List (String × JVal) := []
  headers : List (String × String) := []
  body : Option JVal := none

/-- A successful HTTP response: payload and response headers. -/
structure Response where
  data : JVal
  headers : List (String × String)

/-- The error payload nested inside a failed response, mirroring the
optional-chaining path `error.response.data.errors[0].message` used by
`checkRepositoryPermissions`. -/
structure ErrorItem where
  message : Option String

structure ErrorData where
  errors : Option (List ErrorItem)

structure ErrorResponsePayload where
  data : Option ErrorData

/-- A transport/HTTP error thrown by the underlying client. `status` and
`response` may be absent (pure transport failure). -/
structure HttpError where
  status : Option Nat := none
  response : Option ErrorResponsePayload := none

/-- Outcome of issuing one HTTP request. -/
abbrev Outcome := Except HttpError Response

/-- `error.response?.data?.errors?.[0]?.message || ''` from
`checkRepositoryPermissions`. -/
def firstErrorMessage (e : HttpError) : String :=
  jsOrStr
    (e.response.bind fun r =>
      r.data.bind fun d =>
        d.errors.bind fun l =>
          l.head?.bind fun i => i.message) ""

/-! ## Client construction -/

/-- The caller-supplied axios configuration (the fields the constructor
merge interacts with). -/
structure AxiosRequestConfig where
  baseURL : Option String := none
  headers : List (String × String) := []

structure BitbucketClientConfig where
  token : String
  baseUrl : String
  axiosConfig : Option AxiosRequestConfig := none

/-- The axios instance defaults resulting from `axios.create`. -/
structure ClientDefaults where
  baseURL : String
  headers : List (String × String)

/-- The `BitbucketClient` constructor: spreads the caller's `axiosConfig`,
then writes `baseURL` and the `headers` object, whose literal keys
(`Authorization`, `Content-Type`) are merged after the caller's headers. -/
def BitbucketClient.create (config : BitbucketClientConfig) : ClientDefaults :=
  let axiosConfig := config.axiosConfig.getD {}
  { baseURL := config.baseUrl ++ "/rest/api/latest"
    headers := objMerge axiosConfig.headers
      [("Authorization", "Bearer " ++ config.token),
       ("Content-Type", "application/json")] }

/-! ## Parameter records

The parameter types are declared in `types.ts`; their fields are taken
from the destructuring patterns in `client.ts` and the documented usage.
Records whose fields are only passed through verbatim as query parameters
are modelled as plain objects (`JObj`). -/

structure GetUserProfileParams where
  username : String

structure GetAllUsersParams where
  filter : Option String

structure ListRepositoriesParams where
  projectKey : String

structure GetRepositoryParams where
  projectKey : String
  repositorySlug : String

structure GetPullRequestParams where
  projectKey : String
  repositorySlug : String
  pullRequestId : Nat

structure CreatePullRequestParams where
  projectKey : String
  repositorySlug : String
  title : String
  description : Option String
  fromBranch : String
  toBranch : String
  fromRepositorySlug : Option String
  fromProjectKey : Option String
  reviewers : Option (List String)
  draft : Option Bool

structure GetPullRequestChangesParams where
  projectKey : String
  repositorySlug : String
  pullRequestId : Nat
  limit : Option Nat

structure GetPullRequestFileDiffParams where
  projectKey : String
  repositorySlug : String
  pullRequestId : Nat
  path : String
  contextLines : Option Nat

inductive DiffFormat where
  | text
  | json
  deriving DecidableEq

structure GetPullRequestDiffParams where
  projectKey : String
  repositorySlug : String
  pullRequestId : Nat
  path : Option String
  sinceId : Option String
  untilId : Option String
  contextLines : Option Int
  whitespace : Option String
  format : Option DiffFormat

structure GetPullRequestActivitiesParams where
  projectKey : String
  repositorySlug : String
  pullRequestId : Nat
  rest : JObj

structure AddPullRequestCommentParams where
  projectKey : String
  repositorySlug : String
  pullRequestId : Nat
  text : String
  parentId : Option Nat
  path : Option String
  line : Option Nat
  lineType : Option String
  fileType : Option String

structure DeletePullRequestCommentParams where
  projectKey : String
  repositorySlug : String
  pullRequestId : Nat
  commentId : Nat
  version : Nat

structure UpdateReviewStatusParams where
  projectKey : String
  repositorySlug : String
  pullRequestId : Nat
  status : String

structure AddPullRequestCommentReactionParams where
  projectKey : String
  repositorySlug : String
  pullRequestId : Nat
  commentId : Nat
  emoticon : String

/-- Same fields as the add-reaction parameters. -/
abbrev RemovePullRequestCommentReactionParams := AddPullRequestCommentReactionParams

structure GetRequiredReviewersParams where
  projectKey : String
  repositorySlug : String
  repositoryId : Nat
  sourceBranch : String
  targetBranch : String

structure BrowseParams where
  projectKey : String
  repositorySlug : String
  path : Option String
  at_ : Option String
  limit : Option Nat
  start : Option Nat

structure GetRawContentParams where
  projectKey : String
  repositorySlug : String
  path : String
  at_ : Option String

structure CheckRepositoryPermissionsParams where
  projectKey : String
  repositorySlug : String

structure RepositoryPermissions where
  read : Bool
  write : Bool
  deriving DecidableEq

/-! ## Client methods

Each method returns the list of HTTP requests it issued together with the
promise outcome. The `Outcome` arguments supply, in order, the results of
the requests the method may issue; `await` on a rejected promise
propagates the error (modelled by `Except.map` / explicit matching). -/

def getUserProfile (c : ClientDefaults) (params : GetUserProfileParams)
    (o : Outcome) : List Request × Except HttpError JVal :=
  let req : Request :=
    { meth := .get, base := c.baseURL, path := "/users/" ++ params.username }
  ([req], o.map Response.data)

def getAllUsers (c : ClientDefaults) (params : Option GetAllUsersParams)
    (o : Outcome) : List Request × Except HttpError JVal :=
  let q : List (String × JVal) :=
    match params with
    | some p =>
        match p.filter with
        | some f => if f = "" then [] else [("filter", .str f)]
        | none => []
    | none => []
  let req : Request := { meth := .get, base := c.baseURL, path := "/users", query := q }
  ([req], o.map Response.data)

def listProjects (c : ClientDefaults) (params : Option JObj)
    (o : Outcome) : List Request × Except HttpError JVal :=
  let req : Request :=
    { meth := .get, base := c.baseURL, path := "/projects", query := params.getD [] }
  ([req], o.map Response.data)

def listRepositories (c : ClientDefaults) (params : ListRepositoriesParams)
    (o : Outcome) : List Request × Except HttpError JVal :=
  let req : Request :=
    { meth := .get, base := c.baseURL
      path := "/projects/" ++ params.projectKey ++ "/repos" }
  ([req], o.map Response.data)

def getRepository (c : ClientDefaults) (params : GetRepositoryParams)
    (o : Outcome) : List Request × Except HttpError JVal :=
  let req : Request :=
    { meth := .get, base := c.baseURL
      path := "/projects/" ++ params.projectKey ++ "/repos/" ++ params.repositorySlug }
  ([req], o.map Response.data)

def getInboxPullRequests (c : ClientDefaults) (params : Option JObj)
    (o : Outcome) : List Request × Except HttpError JVal :=
  let req : Request :=
    { meth := .get, base := c.baseURL, path := "/inbox/pull-requests"
      query := params.getD [] }
  ([req], o.map Response.data)

/-- The default query parameters of `getDashboardPullRequests`, written
before the spread of the caller's `params` in the object literal. -/
def dashboardDefaults : JObj :=
  [("role", .str "AUTHOR"), ("state", .str "OPEN"), ("order", .str "NEWEST")]

def getDashboardPullRequests (c : ClientDefaults) (params : Option JObj)
    (o : Outcome) : List Request × Except HttpError JVal :=
  let req : Request :=
    { meth := .get, base := c.baseURL, path := "/dashboard/pull-requests"
      query := objMerge dashboardDefaults (params.getD []) }
  ([req], o.map Response.data)

def getPullRequest (c : ClientDefaults) (params : GetPullRequestParams)
    (o : Outcome) : List Request × Except HttpError JVal :=
  let req : Request :=
    { meth := .get, base := c.baseURL
      path := "/projects/" ++ params.projectKey ++ "/repos/" ++ params.repositorySlug
        ++ "/pull-requests/" ++ toString params.pullRequestId }
  ([req], o.map Response.data)

/-- `const toRefId = (branch) => branch.startsWith('refs/') ? branch :
`refs/heads/${branch}``, the local helper of both `createPullRequest`
and `getRequiredReviewers`. -/
def toRefId (branch : String) : String :=
  if jsStartsWith branch "refs/" then branch else "refs/heads/" ++ branch

/-- The request body built by `createPullRequest`, including every
conditional spread (JavaScript truthiness: an empty string or empty
reviewer list contributes nothing; `draft` is included whenever it is
not `undefined`, even when `false`). -/
def createPullRequestBody (p : CreatePullRequestParams) : JVal :=
  .obj
    ([("title", .str p.title)]
      ++ (match p.description with
          | some d => if d = "" then [] else [("description", JVal.str d)]
          | none => [])
      ++ [("fromRef", .obj
            ([("id", .str (toRefId p.fromBranch))]
              ++ (match p.fromRepositorySlug with
                  | some s =>
                      if s = "" then []
                      else
                        [("repository", JVal.obj
                          [("slug", .str s),
                           ("project", .obj
                             [("key", .str (jsOrStr p.fromProjectKey p.projectKey))])])]
                  | none => [])))]
      ++ [("toRef", .obj [("id", .str (toRefId p.toBranch))])]
      ++ (match p.reviewers with
          | some l =>
              if l.length > 0 then
                [("reviewers", JVal.arr
                  (l.map fun username => .obj [("user", .obj [("name", .str username)])]))]
              else []
          | none => [])
      ++ (match p.draft with
          | some b => [("draft", JVal.bool b)]
          | none => []))

def createPullRequest (c : ClientDefaults) (params : CreatePullRequestParams)
    (o : Outcome) : List Request × Except HttpError JVal :=
  let req : Request :=
    { meth := .post, base := c.baseURL
      path := "/projects/" ++ params.projectKey ++ "/repos/" ++ params.repositorySlug
        ++ "/pull-requests"
      body := some (createPullRequestBody params) }
  ([req], o.map Response.data)

def getPullRequestChanges (c : ClientDefaults) (params : GetPullRequestChangesParams)
    (o : Outcome) : List Request × Except HttpError JVal :=
  let q : List (String × JVal) :=
    match params.limit with
    | some n => if n = 0 then [] else [("limit", .num n)]
    | none => []
  let req : Request :=
    { meth := .get, base := c.baseURL
      path := "/projects/" ++ params.projectKey ++ "/repos/" ++ params.repositorySlug
        ++ "/pull-requests/" ++ toString params.pullRequestId ++ "/changes"
      query := q }
  ([req], o.map Response.data)

def getPullRequestFileDiff (c : ClientDefaults) (params : GetPullRequestFileDiffParams)
    (o : Outcome) : List Request × Except HttpError JVal :=
  let q : List (String × JVal) :=
    match params.contextLines with
    | some n => if n = 0 then [] else [("contextLines", .num n)]
    | none => []
  let req : Request :=
    { meth := .get, base := c.baseURL
      path := "/projects/" ++ params.projectKey ++ "/repos/" ++ params.repositorySlug
        ++ "/pull-requests/" ++ toString params.pullRequestId ++ "/diff/" ++ params.path
      query := q }
  ([req], o.map Response.data)

def getPullRequestDiff (c : ClientDefaults) (params : GetPullRequestDiffParams)
    (o : Outcome) : List Request × Except HttpError JVal :=
  let format := params.format.getD .text
  let queryParams : List (String × JVal) :=
    (match params.sinceId with
     | some s => if s = "" then [] else [("sinceId", JVal.str s)]
     | none => [])
    ++ (match params.untilId with
        | some s => if s = "" then [] else [("untilId", JVal.str s)]
        | none => [])
    ++ (match params.contextLines with
        | some n => [("contextLines", JVal.num n)]
        | none => [])
    ++ (match params.whitespace with
        | some w => if w = "" then [] else [("whitespace", JVal.str w)]
        | none => [])
  let req : Request :=
    { meth := .get, base := c.baseURL
      path := "/projects/" ++ params.projectKey ++ "/repos/" ++ params.repositorySlug
        ++ "/pull-requests/" ++ toString params.pullRequestId ++ "/diff/"
        ++ jsOrStr params.path ""
      query := queryParams
      headers := [("Accept", match format with
                   | .text => "text/plain"
                   | .json => "application/json")] }
  ([req], o.map Response.data)

def getPullRequestActivities (c : ClientDefaults) (params : GetPullRequestActivitiesParams)
    (o : Outcome) : List Request × Except HttpError JVal :=
  let req : Request :=
    { meth := .get, base := c.baseURL
      path := "/projects/" ++ params.projectKey ++ "/repos/" ++ params.repositorySlug
        ++ "/pull-requests/" ++ toString params.pullRequestId ++ "/activities"
      query := params.rest }
  ([req], o.map Response.data)

/-- The comment body built by `addPullRequestComment` (truthiness guards:
`parentId` 0 and empty `path`/`lineType`/`fileType` contribute nothing;
`line` is included whenever not `undefined`). -/
def addCommentBody (p : AddPullRequestCommentParams) : JVal :=
  .obj
    ([("text", .str p.text)]
      ++ (match p.parentId with
          | some n => if n = 0 then [] else [("parent", JVal.obj [("id", .num n)])]
          | none => [])
      ++ (match p.path with
          | some path =>
              if path = "" then []
              else
                [("anchor", JVal.obj
                  ([("path", .str path), ("diffType", .str "EFFECTIVE")]
                    ++ (match p.line with
                        | some n => [("line", JVal.num n)]
                        | none => [])
                    ++ (match p.lineType with
                        | some t => if t = "" then [] else [("lineType", JVal.str t)]
                        | none => [])
                    ++ (match p.fileType with
                        | some t => if t = "" then [] else [("fileType", JVal.str t)]
                        | none => [])))]
          | none => []))

def addPullRequestComment (c : ClientDefaults) (params : AddPullRequestCommentParams)
    (o : Outcome) : List Request × Except HttpError JVal :=
  let req : Request :=
    { meth := .post, base := c.baseURL
      path := "/projects/" ++ params.projectKey ++ "/repos/" ++ params.repositorySlug
        ++ "/pull-requests/" ++ toString params.pullRequestId ++ "/comments"
      body := some (addCommentBody params) }
  ([req], o.map Response.data)

def deletePullRequestComment (c : ClientDefaults) (params : DeletePullRequestCommentParams)
    (o : Outcome) : List Request × Except HttpError Unit :=
  let req : Request :=
    { meth := .delete, base := c.baseURL
      path := "/projects/" ++ params.projectKey ++ "/repos/" ++ params.repositorySlug
        ++ "/pull-requests/" ++ toString params.pullRequestId ++ "/comments/"
        ++ toString params.commentId
      query := [("version", .num params.version)] }
  ([req], o.map fun _ => ())

def updateReviewStatus (c : ClientDefaults) (params : UpdateReviewStatusParams)
    (o1 o2 : Outcome) : List Request × Except HttpError JVal :=
  let req1 : Request := { meth := .get, base := c.baseURL, path := "/application-properties" }
  match o1 with
  | .error e => ([req1], .error e)
  | .ok propertiesResponse =>
      let userSlug := propertiesResponse.headers.lookup "x-ausername"
      let req2 : Request :=
        { meth := .put, base := c.baseURL
          path := "/projects/" ++ params.projectKey ++ "/repos/" ++ params.repositorySlug
            ++ "/pull-requests/" ++ toString params.pullRequestId ++ "/participants/"
            ++ jsTemplate userSlug
          body := some (.obj [("status", .str params.status)]) }
      ([req1, req2], o2.map Response.data)

/-- The alternate base URL used by the comment-likes and default-reviewers
plugin endpoints: the axios default base URL with `/rest/api/latest`
replaced (first occurrence) by `/rest`. -/
def altBaseURL (c : ClientDefaults) : String :=
  jsReplace c.baseURL "/rest/api/latest" "/rest"

def addPullRequestCommentReaction (c : ClientDefaults)
    (params : AddPullRequestCommentReactionParams)
    (o : Outcome) : List Request × Except HttpError JVal :=
  let req : Request :=
    { meth := .put, base := altBaseURL c
      path := "/comment-likes/latest/projects/" ++ params.projectKey ++ "/repos/"
        ++ params.repositorySlug ++ "/pull-requests/" ++ toString params.pullRequestId
        ++ "/comments/" ++ toString params.commentId ++ "/reactions/" ++ params.emoticon
      body := some (.obj []) }
  ([req], o.map Response.data)

def removePullRequestCommentReaction (c : ClientDefaults)
    (params : RemovePullRequestCommentReactionParams)
    (o : Outcome) : List Request × Except HttpError Unit :=
  let req : Request :=
    { meth := .delete, base := altBaseURL c
      path := "/comment-likes/latest/projects/" ++ params.projectKey ++ "/repos/"
        ++ params.repositorySlug ++ "/pull-requests/" ++ toString params.pullRequestId
        ++ "/comments/" ++ toString params.commentId ++ "/reactions/" ++ params.emoticon }
  ([req], o.map fun _ => ())

def getRequiredReviewers (c : ClientDefaults) (params : GetRequiredReviewersParams)
    (o : Outcome) : List Request × Except HttpError JVal :=
  let req : Request :=
    { meth := .get, base := altBaseURL c
      path := "/default-reviewers/latest/projects/" ++ params.projectKey ++ "/repos/"
        ++ params.repositorySlug ++ "/reviewers"
      query :=
        [("sourceRepoId", .num params.repositoryId),
         ("targetRepoId", .num params.repositoryId),
         ("sourceRefId", .str (toRefId params.sourceBranch)),
         ("targetRefId", .str (toRefId params.targetBranch))] }
  ([req], o.map Response.data)

def browse (c : ClientDefaults) (params : BrowseParams)
    (o : Outcome) : List Request × Except HttpError JVal :=
  let queryParams : List (String × JVal) :=
    (match params.at_ with
     | some a => if a = "" then [] else [("at", JVal.str a)]
     | none => [])
    ++ (match params.limit with
        | some n => [("limit", JVal.num n)]
        | none => [])
    ++ (match params.start with
        | some n => [("start", JVal.num n)]
        | none => [])
  let req : Request :=
    { meth := .get, base := c.baseURL
      path := "/projects/" ++ params.projectKey ++ "/repos/" ++ params.repositorySlug
        ++ "/browse/" ++ jsOrStr params.path ""
      query := queryParams }
  ([req], o.map Response.data)

def getRawContent (c : ClientDefaults) (params : GetRawContentParams)
    (o : Outcome) : List Request × Except HttpError JVal :=
  let queryParams : List (String × JVal) :=
    match params.at_ with
    | some a => if a = "" then [] else [("at", JVal.str a)]
    | none => []
  let req : Request :=
    { meth := .get, base := c.baseURL
      path := "/projects/" ++ params.projectKey ++ "/repos/" ++ params.repositorySlug
        ++ "/raw/" ++ params.path
      query := queryParams
      headers := [("Accept", "text/plain")] }
  ([req], o.map Response.data)

def checkRepositoryPermissions (c : ClientDefaults)
    (params : CheckRepositoryPermissionsParams)
    (o1 o2 : Outcome) : List Request × Except HttpError RepositoryPermissions :=
  let repoPath := "/projects/" ++ params.projectKey ++ "/repos/" ++ params.repositorySlug
  let req1 : Request := { meth := .get, base := c.baseURL, path := repoPath }
  match o1 with
  | .error _ => ([req1], .ok { read := false, write := false })
  | .ok _ =>
      let req2 : Request :=
        { meth := .post, base := c.baseURL, path := repoPath ++ "/branches"
          body := some (.obj []) }
      match o2 with
      | .ok _ => ([req1, req2], .ok { read := true, write := true })
      | .error error =>
          let message := firstErrorMessage error
          let write := strIncludes message "name" && strIncludes message "required"
          ([req1, req2], .ok { read := true, write := write })

/-! ## Uniform view of all public methods -/

/-- One call to a public client method, with its parameters. -/
inductive ApiCall where
  | getUserProfile (p : GetUserProfileParams)
  | getAllUsers (p : Option GetAllUsersParams)
  | listProjects (p : Option JObj)
  | listRepositories (p : ListRepositoriesParams)
  | getRepository (p : GetRepositoryParams)
  | getInboxPullRequests (p : Option JObj)
  | getDashboardPullRequests (p : Option JObj)
  | getPullRequest (p : GetPullRequestParams)
  | createPullRequest (p : CreatePullRequestParams)
  | getPullRequestChanges (p : GetPullRequestChangesParams)
  | getPullRequestFileDiff (p : GetPullRequestFileDiffParams)
  | getPullRequestDiff (p : GetPullRequestDiffParams)
  | getPullRequestActivities (p : GetPullRequestActivitiesParams)
  | addPullRequestComment (p : AddPullRequestCommentParams)
  | deletePullRequestComment (p : DeletePullRequestCommentParams)
  | updateReviewStatus (p : UpdateReviewStatusParams)
  | addPullRequestCommentReaction (p : AddPullRequestCommentReactionParams)
  | removePullRequestCommentReaction (p : RemovePullRequestCommentReactionParams)
  | getRequiredReviewers (p : GetRequiredReviewersParams)
  | browse (p : BrowseParams)
  | getRawContent (p : GetRawContentParams)
  | checkRepositoryPermissions (p : CheckRepositoryPermissionsParams)

/-- Dispatch a call to the corresponding method. `o1` is the outcome of
the first request the method may issue, `o2` of the second (unused by the
single-request methods). Results are uniformly encoded as `JVal`
(`void` methods resolve to `null`, the permissions record to its JSON
object). -/
def callMethod (c : ClientDefaults) (a : ApiCall) (o1 o2 : Outcome) :
    List Request × Except HttpError JVal :=
  match a with
  | .getUserProfile p => getUserProfile c p o1
  | .getAllUsers p => getAllUsers c p o1
  | .listProjects p => listProjects c p o1
  | .listRepositories p => listRepositories c p o1
  | .getRepository p => getRepository c p o1
  | .getInboxPullRequests p => getInboxPullRequests c p o1
  | .getDashboardPullRequests p => getDashboardPullRequests c p o1
  | .getPullRequest p => getPullRequest c p o1
  | .createPullRequest p => createPullRequest c p o1
  | .getPullRequestChanges p => getPullRequestChanges c p o1
  | .getPullRequestFileDiff p => getPullRequestFileDiff c p o1
  | .getPullRequestDiff p => getPullRequestDiff c p o1
  | .getPullRequestActivities p => getPullRequestActivities c p o1
  | .addPullRequestComment p => addPullRequestComment c p o1
  | .deletePullRequestComment p =>
      let r := deletePullRequestComment c p o1
      (r.1, r.2.map fun _ => JVal.null)
  | .updateReviewStatus p => updateReviewStatus c p o1 o2
  | .addPullRequestCommentReaction p => addPullRequestCommentReaction c p o1
  | .removePullRequestCommentReaction p =>
      let r := removePullRequestCommentReaction c p o1
      (r.1, r.2.map fun _ => JVal.null)
  | .getRequiredReviewers p => getRequiredReviewers c p o1
  | .browse p => browse c p o1
  | .getRawContent p => getRawContent c p o1
  | .checkRepositoryPermissions p =>
      let r := checkRepositoryPermissions c p o1 o2
      (r.1, r.2.map fun pm => JVal.obj [("read", .bool pm.read), ("write", .bool pm.write)])

/-- Is this call a `checkRepositoryPermissions` call? -/
def ApiCall.isCheck : ApiCall → Bool
  | .checkRepositoryPermissions _ => true
  | _ => false

/-- Is this call an `updateReviewStatus` call? -/
def ApiCall.isUpdate : ApiCall → Bool
  | .updateReviewStatus _ => true
  | _ => false

/-- The three methods that target a plugin endpoint via a per-request
alternate base URL. -/
def ApiCall.usesAltBase : ApiCall → Bool
  | .addPullRequestCommentReaction _ => true
  | .removePullRequestCommentReaction _ => true
  | .getRequiredReviewers _ => true
  | _ => false

/-- The `Accept` header override a call's requests are expected to carry:
`text/plain` for raw content and for diffs in the default `text` format,
`application/json` for diffs in `json` format, nothing elsewhere. -/
def expectedAccept : ApiCall → Option String
  | .getRawContent _ => some "text/plain"
  | .getPullRequestDiff p =>
      some (match p.format.getD .text with
            | .text => "text/plain"
            | .json => "application/json")
  | _ => none

/-! ## Concrete sample inputs (used by witnesses and counterexamples) -/

def sampleClient : ClientDefaults :=
  BitbucketClient.create { token := "tok", baseUrl := "https://bb.example.com" }

def sampleResponse : Response :=
  { data := .obj [], headers := [("x-ausername", "alice")] }

/-- A failed probe whose first error message is the server's validation
complaint about the missing required field. -/
def sampleValidationError : HttpError :=
  { status := some 400
    response := some { data := some { errors := some [{ message := some "The name field is required." }] } } }

/-- A failed probe carrying a permission denial. -/
def samplePermissionError : HttpError :=
  { status := some 401
    response := some { data := some { errors := some [{ message := some "You are not permitted to write." }] } } }

/-- A pure transport failure with no response payload at all. -/
def sampleTransportError : HttpError :=
  { status := none, response := none }

def sampleCheckParams : CheckRepositoryPermissionsParams :=
  { projectKey := "PROJ", repositorySlug := "repo" }

def sampleUpdateParams : UpdateReviewStatusParams :=
  { projectKey := "PROJ", repositorySlug := "repo", pullRequestId := 7, status := "APPROVED" }

def sampleCreateParams : CreatePullRequestParams :=
  { projectKey := "PROJ", repositorySlug := "repo", title := "My PR"
    description := some "adds a feature", fromBranch := "feature/x", toBranch := "main"
    fromRepositorySlug := none, fromProjectKey := none
    reviewers := some ["carol"], draft := none }

def sampleReviewersParams : GetRequiredReviewersParams :=
  { projectKey := "PROJ", repositorySlug := "repo", repositoryId := 42
    sourceBranch := "feature/x", targetBranch := "main" }

def sampleRawParams : GetRawContentParams :=
  { projectKey := "PROJ", repositorySlug := "repo", path := "README.md", at_ := none }

def emptyRequest : Request :=
  { meth := .get, base := "", path := "" }

/-- The single request issued by a sample `getRequiredReviewers` call. -/
def sampleReviewersTraceHead : Request :=
  ((getRequiredReviewers sampleClient sampleReviewersParams (.ok sampleResponse)).1).headD
    emptyRequest

/-- The single request issued by a sample `getRawContent` call. -/
def sampleRawTraceHead : Request :=
  ((getRawContent sampleClient sampleRawParams (.ok sampleResponse)).1).headD emptyRequest

/-- The single request issued by a sample `getDashboardPullRequests` call. -/
def sampleDashboardTraceHead : Request :=
  ((getDashboardPullRequests sampleClient none (.ok sampleResponse)).1).headD emptyRequest

/-! ## Helper lemmas -/

/-- `jsStartsWith` agrees with the specification-side prefix predicate. -/
theorem jsStartsWith_iff (s pre : String) :
    jsStartsWith s pre = true ↔ StartsWithP pre s := by
  unfold jsStartsWith StartsWithP
  rw [ List.isPrefixOf_iff_prefix]
  constructor
  · rintro ⟨t, ht⟩
    exact ⟨⟨t⟩, String.ext (by simpa [String.data_append] using ht.symm)⟩
  · rintro ⟨t, rfl⟩
    exact ⟨t.data, by simp [String.data_append]⟩

/-- The search loop of `strIncludes` finds exactly the contiguous
sublists. -/
theorem subOccurs_iff (sub l : List Char) :
    subOccurs sub l = true ↔ sub <:+: l := by
  induction l with
  | nil => simp [subOccurs, List.isEmpty_iff, List.infix_nil]
  | cons c cs ih =>
      simp [subOccurs, List.infix_cons_iff, List.isPrefixOf_iff_prefix, ih]

/-- `strIncludes` agrees with the specification-side substring
predicate. -/
theorem strIncludes_iff (s sub : String) :
    strIncludes s sub = true ↔ ContainsSub sub s := by
  unfold strIncludes ContainsSub
  rw [subOccurs_iff]
  constructor
  · rintro ⟨a, b, h⟩
    refine ⟨⟨a⟩, ⟨b⟩, String.ext ?_⟩
    simpa [String.data_append] using h.symm
  · rintro ⟨a, b, rfl⟩
    exact ⟨a.data, b.data, by simp [String.data_append]⟩

/-- Lookup in a JavaScript object-spread merge: the value from `b` wins
when the key appears in `b`, otherwise the value from `a` is found. -/
theorem lookup_objMerge {α : Type} (a b : List (String × α)) (k : String) :
    (objMerge a b).lookup k = (b.lookup k).or (a.lookup k) := by
  induction a with
  | nil => simp [objMerge]
  | cons hd tl ih =>
      obtain ⟨k1, v1⟩ := hd
      unfold objMerge at ih ⊢
      by_cases hb : List.lookup k1 b = none
      · have hkeep : List.filter (fun kv => (List.lookup kv.1 b).isNone) ((k1, v1) :: tl)
            = (k1, v1) :: List.filter (fun kv => (List.lookup kv.1 b).isNone) tl := by
          simp [List.filter_cons, hb]
        rw [hkeep]
        by_cases hk : k = k1
        · subst hk
          simp [List.lookup_cons, hb]
        · have hkk : (k == k1) = false := by simpa using hk
          simp only [List.cons_append, List.lookup_cons, hkk]
          exact ih
      · have hdrop : List.filter (fun kv => (List.lookup kv.1 b).isNone) ((k1, v1) :: tl)
            = List.filter (fun kv => (List.lookup kv.1 b).isNone) tl := by
          simp [List.filter_cons, Option.isNone_iff_eq_none, hb]
        rw [hdrop, ih]
        cases hv : List.lookup k1 b with
        | none => exact absurd hv hb
        | some v =>
            by_cases hk : k = k1
            · subst hk
              simp [List.lookup_cons, hv]
            · have hkk : (k == k1) = false := by simpa using hk
              simp [List.lookup_cons, hkk]

/-- Two strings with incomparable prefixes are distinct however they are
extended. -/
theorem append_ne_of_incomparable (a b s t : String)
    (h1 : ¬ (a.data <+: b.data)) (h2 : ¬ (b.data <+: a.data)) :
    a ++ s ≠ b ++ t := by
  intro h
  have hd : a.data ++ s.data = b.data ++ t.data := by
    have := congrArg String.data h
    simpa [String.data_append] using this
  have hp : a.data <+: b.data ++ t.data := by
    rw [← hd]; exact List.prefix_append _ _
  rcases List.prefix_or_prefix_of_prefix hp (List.prefix_append _ _) with hc | hc
  · exact h1 hc
  · exact h2 hc

/-! ## Claim theorems -/

/-- C9: for every client configuration, the constructed defaults have base
URL `baseUrl ++ "/rest/api/latest"`, an `Authorization: Bearer <token>`
header and `Content-Type: application/json`. The constructor's entries are
merged after the caller's `axiosConfig`, so caller-supplied `baseURL`,
`Authorization` or `Content-Type` entries are overridden and cannot
disable the bearer-token authentication. -/
theorem c9_constructor_overrides (config : BitbucketClientConfig) :
    (BitbucketClient.create config).baseURL = config.baseUrl ++ "/rest/api/latest"
    ∧ (BitbucketClient.create config).headers.lookup "Authorization"
        = some ("Bearer " ++ config.token)
    ∧ (BitbucketClient.create config).headers.lookup "Content-Type"
        = some "application/json" := by
  refine ⟨rfl, ?_, ?_⟩ <;>
    simp [BitbucketClient.create, lookup_objMerge, List.lookup, Option.or]

/-- C10: `checkRepositoryPermissions` always resolves with a permissions
record — no outcome of its probes makes it reject — and the record never
claims write access without read access. -/
theorem c10_check_never_rejects (c : ClientDefaults)
    (p : CheckRepositoryPermissionsParams) (o1 o2 : Outcome) :
    ∃ pm : RepositoryPermissions,
      (checkRepositoryPermissions c p o1 o2).2 = .ok pm
      ∧ (pm.write = true → pm.read = true) := by
  cases o1 with
  | error e => exact ⟨⟨false, false⟩, rfl, by simp⟩
  | ok r =>
      cases o2 with
      | ok r2 => exact ⟨⟨true, true⟩, rfl, fun _ => rfl⟩
      | error e =>
          exact ⟨⟨true, strIncludes (firstErrorMessage e) "name"
                    && strIncludes (firstErrorMessage e) "required"⟩,
                 rfl, fun _ => rfl⟩

/-- C10 witness: a concrete run (failing read probe) resolves with a
permissions record satisfying the implication. -/
theorem c10_witness :
    ∃ pm : RepositoryPermissions,
      (checkRepositoryPermissions sampleClient sampleCheckParams
          (.error sampleTransportError) (.error sampleValidationError)).2 = .ok pm
      ∧ (pm.write = true → pm.read = true) :=
  c10_check_never_rejects sampleClient sampleCheckParams
    (.error sampleTransportError) (.error sampleValidationError)

/-- C2: the permission probe. A failing read probe yields
`{read := false, write := false}`. When the read probe succeeds the write
probe is a POST to the repository's `/branches` endpoint with empty body;
on its failure `write` is `true` exactly when the first error message of
the failure response contains both substrings `name` and `required`,
and `false` otherwise — in particular when the error carries no response
payload at all. -/
theorem c2_write_probe_heuristic (c : ClientDefaults)
    (p : CheckRepositoryPermissionsParams) (r : Response) (e : HttpError)
    (o2 : Outcome) :
    ((checkRepositoryPermissions c p (.error e) o2).2
        = .ok { read := false, write := false })
    ∧ ((checkRepositoryPermissions c p (.ok r) (.error e)).1
        = [{ meth := .get, base := c.baseURL,
             path := "/projects/" ++ p.projectKey ++ "/repos/" ++ p.repositorySlug },
           { meth := .post, base := c.baseURL,
             path := "/projects/" ++ p.projectKey ++ "/repos/" ++ p.repositorySlug
               ++ "/branches",
             body := some (.obj []) }])
    ∧ (∃ w : Bool,
        (checkRepositoryPermissions c p (.ok r) (.error e)).2
            = .ok { read := true, write := w }
        ∧ (w = true ↔ ContainsSub "name" (firstErrorMessage e)
            ∧ ContainsSub "required" (firstErrorMessage e)))
    ∧ (e.response = none →
        (checkRepositoryPermissions c p (.ok r) (.error e)).2
          = .ok { read := true, write := false }) := by
  refine ⟨rfl, rfl, ⟨_, rfl, ?_⟩, ?_⟩
  · rw [Bool.and_eq_true, strIncludes_iff, strIncludes_iff]
  · intro h
    have hmsg : firstErrorMessage e = "" := by
      simp [firstErrorMessage, h, jsOrStr]
    have hval : (checkRepositoryPermissions c p (.ok r) (.error e)).2
        = .ok { read := true,
                write := strIncludes (firstErrorMessage e) "name"
                  && strIncludes (firstErrorMessage e) "required" } := rfl
    rw [hval, hmsg]
    rfl

/-- C2 witness: a write probe failing with a bare transport error (no
response payload) yields read but not write. -/
theorem c2_witness :
    (checkRepositoryPermissions sampleClient sampleCheckParams
        (.ok sampleResponse) (.error sampleTransportError)).2
      = .ok { read := true, write := false } :=
  (c2_write_probe_heuristic sampleClient sampleCheckParams sampleResponse
      sampleTransportError (.error sampleTransportError)).2.2.2 rfl

/-- C7: `updateReviewStatus` issues a GET to `/application-properties`,
reads the user slug from the `x-ausername` response header, then PUTs
`{ status }` to the pull request's `participants/<slug>` endpoint and
resolves with the PUT response's payload. -/
theorem c7_update_review_status_flow (c : ClientDefaults)
    (p : UpdateReviewStatusParams) (r1 : Response) (o2 : Outcome) (slug : String)
    (h : r1.headers.lookup "x-ausername" = some slug) :
    (updateReviewStatus c p (.ok r1) o2).1
      = [{ meth := .get, base := c.baseURL, path := "/application-properties" },
         { meth := .put, base := c.baseURL,
           path := "/projects/" ++ p.projectKey ++ "/repos/" ++ p.repositorySlug
             ++ "/pull-requests/" ++ toString p.pullRequestId ++ "/participants/" ++ slug,
           body := some (.obj [("status", .str p.status)]) }]
    ∧ (updateReviewStatus c p (.ok r1) o2).2 = o2.map Response.data := by
  constructor
  · simp [updateReviewStatus, h, jsTemplate]
  · rfl

/-- C7 witness: the resolved value of a concrete run is the PUT
response's payload. -/
theorem c7_witness :
    (updateReviewStatus sampleClient sampleUpdateParams (.ok sampleResponse)
        (.ok sampleResponse)).2
      = (Except.ok sampleResponse : Outcome).map Response.data :=
  (c7_update_review_status_flow sampleClient sampleUpdateParams sampleResponse
      (.ok sampleResponse) "alice" rfl).2

/-- C8: the query sent by `getDashboardPullRequests` is the defaults
`role = AUTHOR`, `state = OPEN`, `order = NEWEST` merged with the caller's
record, the caller's value winning on any key it supplies. -/
theorem c8_dashboard_query_merge (c : ClientDefaults) (params : Option JObj)
    (o : Outcome) :
    ∀ req ∈ (getDashboardPullRequests c params o).1,
      req.query = objMerge dashboardDefaults (params.getD [])
      ∧ (∀ k, req.query.lookup k
          = ((params.getD []).lookup k).or (dashboardDefaults.lookup k))
      ∧ dashboardDefaults.lookup "role" = some (.str "AUTHOR")
      ∧ dashboardDefaults.lookup "state" = some (.str "OPEN")
      ∧ dashboardDefaults.lookup "order" = some (.str "NEWEST") := by
  intro req hreq
  simp only [getDashboardPullRequests, List.mem_singleton] at hreq
  subst hreq
  exact ⟨rfl, fun k => lookup_objMerge _ _ k, rfl, rfl, rfl⟩

/-- C8 witness: with no caller parameters the default role is sent. -/
theorem c8_witness :
    sampleDashboardTraceHead.query.lookup "role"
      = (((none : Option JObj).getD []).lookup "role").or
          (dashboardDefaults.lookup "role") :=
  ((c8_dashboard_query_merge sampleClient none (.ok sampleResponse)
      sampleDashboardTraceHead (List.mem_singleton.mpr rfl)).2.1) "role"

/-- C3: `toRefId` returns the branch name unchanged when it starts with
`refs/` and prefixes `refs/heads/` otherwise, and this normalized
reference is what `createPullRequest` places in the request body as
`fromRef.id` / `toRef.id` and `getRequiredReviewers` places in the query
as `sourceRefId` / `targetRefId`. -/
theorem c3_branch_normalization (c : ClientDefaults) (b : String)
    (p : CreatePullRequestParams) (q : GetRequiredReviewersParams) (o o2 : Outcome) :
    (StartsWithP "refs/" b → toRefId b = b)
    ∧ (¬ StartsWithP "refs/" b → toRefId b = "refs/heads/" ++ b)
    ∧ (∀ req ∈ (createPullRequest c p o).1,
        ∃ body, req.body = some body
          ∧ (jGet body "fromRef").bind (fun v => jGet v "id")
              = some (.str (toRefId p.fromBranch))
          ∧ (jGet body "toRef").bind (fun v => jGet v "id")
              = some (.str (toRefId p.toBranch)))
    ∧ (∀ req ∈ (getRequiredReviewers c q o2).1,
        req.query.lookup "sourceRefId" = some (.str (toRefId q.sourceBranch))
        ∧ req.query.lookup "targetRefId" = some (.str (toRefId q.targetBranch))) := by
  refine ⟨?_, ?_, ?_, ?_⟩
  · intro h
    unfold toRefId
    rw [if_pos ((jsStartsWith_iff b "refs/").mpr h)]
  · intro h
    have hb : jsStartsWith b "refs/" = false := by
      cases hcase : jsStartsWith b "refs/" with
      | true => exact absurd ((jsStartsWith_iff b "refs/").mp hcase) h
      | false => rfl
    simp [toRefId, hb]
  · intro req hreq
    simp only [createPullRequest, List.mem_singleton] at hreq
    subst hreq
    refine ⟨createPullRequestBody p, rfl, ?_, ?_⟩ <;>
      · cases hdesc : p.description with
        | none =>
            simp [createPullRequestBody, jGet, List.lookup_append, List.lookup,
              hdesc, Option.or]
        | some d =>
            by_cases hd : d = "" <;>
              simp [createPullRequestBody, jGet, List.lookup_append, List.lookup,
                hdesc, hd, Option.or]
  · intro req hreq
    simp only [getRequiredReviewers, List.mem_singleton] at hreq
    subst hreq
    exact ⟨rfl, rfl⟩

/-- C3 witness: an already-qualified branch name passes through
unchanged. -/
theorem c3_witness : toRefId "refs/tags/v1" = "refs/tags/v1" :=
  (c3_branch_normalization sampleClient "refs/tags/v1" sampleCreateParams
      sampleReviewersParams (.ok sampleResponse) (.ok sampleResponse)).1
    ⟨"tags/v1", rfl⟩

/-- C1 counterexample: `checkRepositoryPermissions` catches the failure of
its read probe and locally recovers, resolving with a permissions record
instead of propagating the error — so it is not true that no method
catches a transport/server error. -/
theorem c1_counterexample :
    (checkRepositoryPermissions sampleClient sampleCheckParams
        (.error samplePermissionError) (.ok sampleResponse)).2
      = .ok { read := false, write := false }
    ∧ (checkRepositoryPermissions sampleClient sampleCheckParams
        (.error samplePermissionError) (.ok sampleResponse)).2
      ≠ .error samplePermissionError :=
  ⟨rfl, fun h => Except.noConfusion h⟩

/-- C1 (amended): every client method other than
`checkRepositoryPermissions` propagates a failing request's error to the
caller unmodified — a failing first request rejects the call with that
very error, a failing second request of `updateReviewStatus` likewise —
and any error a call rejects with is exactly one of its requests' errors.
`checkRepositoryPermissions` alone catches its probes' errors and turns
them into a permissions result. -/
theorem c1_error_propagation (c : ClientDefaults) (a : ApiCall) (o2 : Outcome)
    (e : HttpError) (hc : a.isCheck = false) :
    ((callMethod c a (.error e) o2).2 = .error e)
    ∧ (∀ r : Response, a.isUpdate = true →
        (callMethod c a (.ok r) (.error e)).2 = .error e)
    ∧ (∀ (o1 : Outcome) (e2 : HttpError),
        (callMethod c a o1 o2).2 = .error e2 → o1 = .error e2 ∨ o2 = .error e2) := by
  cases a
  case checkRepositoryPermissions p => simp [ApiCall.isCheck] at hc
  case updateReviewStatus p =>
      refine ⟨rfl, fun r _ => rfl, fun o1 e2 hres => ?_⟩
      cases o1 with
      | error e1 => exact Or.inl (congrArg Except.error (Except.error.inj hres))
      | ok r =>
          cases o2 with
          | error e3 => exact Or.inr (congrArg Except.error (Except.error.inj hres))
          | ok r2 => exact Except.noConfusion hres
  all_goals
    refine ⟨rfl, fun r hupd => absurd hupd (by simp [ApiCall.isUpdate]),
      fun o1 e2 hres => ?_⟩
    cases o1 with
    | error e1 => exact Or.inl (congrArg Except.error (Except.error.inj hres))
    | ok r => exact Except.noConfusion hres

/-- C1 witness: a failing `getUserProfile` request rejects the call with
the very same error. -/
theorem c1_witness :
    (callMethod sampleClient (.getUserProfile { username := "bob" })
        (.error sampleTransportError) (.ok sampleResponse)).2
      = .error sampleTransportError :=
  (c1_error_propagation sampleClient (.getUserProfile { username := "bob" })
      (.ok sampleResponse) sampleTransportError rfl).1

/-- C4 counterexample: when the preliminary lookup of `updateReviewStatus`
fails, the call issues only one request, not two. -/
theorem c4_counterexample :
    (updateReviewStatus sampleClient sampleUpdateParams
        (.error sampleTransportError) (.ok sampleResponse)).1.length = 1
    ∧ (updateReviewStatus sampleClient sampleUpdateParams
        (.error sampleTransportError) (.ok sampleResponse)).1.length ≠ 2 :=
  ⟨rfl, by decide⟩

/-- C4 (amended): every public method issues exactly one HTTP request per
call, except `updateReviewStatus` — two when its preliminary lookup
succeeds, one when it fails — and `checkRepositoryPermissions` — at most
two: one when the read probe fails, two when it succeeds. No method ever
issues more than two requests, retries, or iterates over result pages. -/
theorem c4_request_counts (c : ClientDefaults) (a : ApiCall) (o1 o2 : Outcome) :
    (a.isUpdate = false → a.isCheck = false → (callMethod c a o1 o2).1.length = 1)
    ∧ (a.isUpdate = true →
        (∀ e, o1 = .error e → (callMethod c a o1 o2).1.length = 1)
        ∧ (∀ r, o1 = .ok r → (callMethod c a o1 o2).1.length = 2))
    ∧ (a.isCheck = true →
        (callMethod c a o1 o2).1.length ≤ 2
        ∧ (∀ e, o1 = .error e → (callMethod c a o1 o2).1.length = 1)
        ∧ (∀ r, o1 = .ok r → (callMethod c a o1 o2).1.length = 2)) := by
  cases a
  case updateReviewStatus p =>
      refine ⟨fun h _ => by simp [ApiCall.isUpdate] at h, fun _ => ⟨?_, ?_⟩,
        fun h => by simp [ApiCall.isCheck] at h⟩
      · rintro e rfl
        rfl
      · rintro r rfl
        rfl
  case checkRepositoryPermissions p =>
      refine ⟨fun _ h => by simp [ApiCall.isCheck] at h,
        fun h => by simp [ApiCall.isUpdate] at h, fun _ => ⟨?_, ?_, ?_⟩⟩
      · cases o1 <;> cases o2 <;>
          simp [callMethod, checkRepositoryPermissions]
      · rintro e rfl
        rfl
      · rintro r rfl
        cases o2 <;> rfl
  all_goals
    exact ⟨fun _ _ => rfl, fun h => by simp [ApiCall.isUpdate] at h,
      fun h => by simp [ApiCall.isCheck] at h⟩

/-- C4 witness: a concrete single-request method issues one request. -/
theorem c4_witness :
    (callMethod sampleClient (.getRepository { projectKey := "PROJ", repositorySlug := "repo" })
        (.ok sampleResponse) (.ok sampleResponse)).1.length = 1 :=
  (c4_request_counts sampleClient
      (.getRepository { projectKey := "PROJ", repositorySlug := "repo" })
      (.ok sampleResponse) (.ok sampleResponse)).1 rfl rfl

/-- C5: exactly the three reaction/required-reviewers method calls issue
their request against the alternate plugin base (the axios default base
URL with `/rest/api/latest` replaced by `/rest`); every other request
goes to the default base. The add- and remove-reaction calls target the
same endpoint path, and that path is always distinct from the
required-reviewers path, so exactly two endpoints live on the alternate
base; the default base of a constructed client is
`baseUrl ++ "/rest/api/latest"`. -/
theorem c5_alternate_base_path (c : ClientDefaults) (a : ApiCall) (o1 o2 : Outcome) :
    (∀ req ∈ (callMethod c a o1 o2).1,
        req.base = if a.usesAltBase then altBaseURL c else c.baseURL)
    ∧ (∀ (p : AddPullRequestCommentReactionParams) (ob1 ob2 : Outcome),
        (addPullRequestCommentReaction c p ob1).1.map Request.path
          = (removePullRequestCommentReaction c p ob2).1.map Request.path)
    ∧ (∀ (p : AddPullRequestCommentReactionParams) (q : GetRequiredReviewersParams)
        (ob1 ob2 : Outcome) (req1 req2 : Request),
        req1 ∈ (addPullRequestCommentReaction c p ob1).1 →
        req2 ∈ (getRequiredReviewers c q ob2).1 →
        req1.path ≠ req2.path)
    ∧ (∀ config : BitbucketClientConfig,
        (BitbucketClient.create config).baseURL
          = config.baseUrl ++ "/rest/api/latest") := by
  refine ⟨?_, fun p ob1 ob2 => rfl, ?_, fun config => rfl⟩
  · intro req hreq
    cases a <;> cases o1 <;> cases o2 <;>
      simp_all [callMethod, getUserProfile, getAllUsers, listProjects,
        listRepositories, getRepository, getInboxPullRequests,
        getDashboardPullRequests, getPullRequest, createPullRequest,
        getPullRequestChanges, getPullRequestFileDiff, getPullRequestDiff,
        getPullRequestActivities, addPullRequestComment, deletePullRequestComment,
        updateReviewStatus, addPullRequestCommentReaction,
        removePullRequestCommentReaction, getRequiredReviewers, browse,
        getRawContent, checkRepositoryPermissions, ApiCall.usesAltBase] <;>
      (rcases hreq with rfl | rfl <;> rfl)
  · intro p q ob1 ob2 req1 req2 h1 h2
    simp only [addPullRequestCommentReaction, List.mem_singleton] at h1
    simp only [getRequiredReviewers, List.mem_singleton] at h2
    subst h1
    subst h2
    simp only [String.append_assoc]
    exact append_ne_of_incomparable _ _ _ _ (by decide) (by decide)

/-- C5 witness: the required-reviewers request goes to the alternate
base. -/
theorem c5_witness :
    sampleReviewersTraceHead.base
      = if (ApiCall.getRequiredReviewers sampleReviewersParams).usesAltBase
        then altBaseURL sampleClient else sampleClient.baseURL :=
  (c5_alternate_base_path sampleClient (.getRequiredReviewers sampleReviewersParams)
      (.ok sampleResponse) (.ok sampleResponse)).1 sampleReviewersTraceHead
    (List.mem_singleton.mpr rfl)

/-- C6: a request overrides the content-negotiation header exactly as
`expectedAccept` prescribes: `Accept: text/plain` for `getRawContent` and
for `getPullRequestDiff` in the (default) `text` format,
`Accept: application/json` for `getPullRequestDiff` in `json` format, and
no `Accept` override from any other method. -/
theorem c6_accept_header (c : ClientDefaults) (a : ApiCall) (o1 o2 : Outcome) :
    ∀ req ∈ (callMethod c a o1 o2).1,
      req.headers.lookup "Accept" = expectedAccept a := by
  intro req hreq
  cases a <;> cases o1 <;> cases o2 <;>
    simp_all [callMethod, getUserProfile, getAllUsers, listProjects,
      listRepositories, getRepository, getInboxPullRequests,
      getDashboardPullRequests, getPullRequest, createPullRequest,
      getPullRequestChanges, getPullRequestFileDiff, getPullRequestDiff,
      getPullRequestActivities, addPullRequestComment, deletePullRequestComment,
      updateReviewStatus, addPullRequestCommentReaction,
      removePullRequestCommentReaction, getRequiredReviewers, browse,
      getRawContent, checkRepositoryPermissions, expectedAccept, List.lookup] <;>
    (rcases hreq with rfl | rfl <;> simp)

/-- C6 witness: the raw-content request carries `Accept: text/plain`. -/
theorem c6_witness :
    sampleRawTraceHead.headers.lookup "Accept"
      = expectedAccept (.getRawContent sampleRawParams) :=
  c6_accept_header sampleClient (.getRawContent sampleRawParams) (.ok sampleResponse)
    (.ok sampleResponse) sampleRawTraceHead (List.mem_singleton.mpr rfl)
